import Mathlib

/-!
Verification development for the jasoos backend (FastAPI proxy).

The backend has two request handlers:
* `POST /score` (src/backend/routers/score.py, `score_reasoning`): short-circuits
  on `is_correct = false` and on short reasoning, otherwise calls an external
  model and extracts a structured score through a chain of fallback parsers.
* `POST /chat` (src/backend/routers/chat.py, `chat` / `generate`): prepends a
  system message to the request messages and relays the upstream text stream.

The embedding below translates the handlers into pure Lean functions.  The
external model is abstracted as a `ModelOutcome` value describing what the
upstream calls deliver; everything downstream of that value is translated
directly from the Python source.
-/

namespace Jasoos

/-- Pydantic model `ReasoningScore` (src/backend/models.py): four integer
score fields. -/
structure ReasoningScore where
  score : Int
  motive_points : Int
  method_points : Int
  logic_points : Int
deriving DecidableEq

/-- Shape of the JSON body returned by the score endpoint: a top-level
`score` plus a `breakdown` object (the dict literals in score.py). -/
structure ScoreResponse where
  score : Int
  breakdown : ReasoningScore
deriving DecidableEq

/-- Pydantic model `ScoreRequest` (src/backend/models.py).  The `solution`
dict is modelled as an association list with string values (the shape the
game sends and the prompt interpolates). -/
structure ScoreRequest where
  reasoning : String
  solution : List (String × String)
  is_correct : Bool

/-- Python `dict.get(k, default)` on the modelled `solution` mapping. -/
def dictGet (d : List (String × String)) (k default : String) : String :=
  match d.find? (fun p => p.1 == k) with
  | some p => p.2
  | none => default

/-- The f-string prompt built in `score_reasoning` (score.py lines 55-63). -/
def buildPrompt (request : ScoreRequest) : String :=
  "THE CORRECT SOLUTION:\n- Culprit: " ++ dictGet request.solution "culprit" "Unknown" ++
  "\n- Method: " ++ dictGet request.solution "method" "Unknown" ++
  "\n- Motive: " ++ dictGet request.solution "motive" "Unknown" ++
  "\n\nTHE DETECTIVE\x27S REASONING:\n\"" ++ request.reasoning ++
  "\"\n\nEvaluate the reasoning and provide a structured score."

/-- JSON whitespace characters accepted by `json.loads` between tokens. -/
def isJsonWs (c : Char) : Bool :=
  c == ' ' || c == '\t' || c == '\n' || c == '\r'

/-- Skip JSON whitespace. -/
def skipWs (l : List Char) : List Char :=
  l.dropWhile isJsonWs

/-- Parse a JSON string literal without escape sequences (the subset the
scoring contract uses; an escape or a missing closing quote fails the parse,
as `json.loads` fails on a lone backslash). -/
def parseJString : List Char → Option (String × List Char)
  | '"' :: rest =>
    let body := rest.takeWhile (fun c => !(c == '"' || c == '\\'))
    match rest.drop body.length with
    | '"' :: tail => some (String.mk body, tail)
    | _ => none
  | _ => none

/-- Accumulate a digit list into a natural number. -/
def digitsToNat (ds : List Char) : Nat :=
  ds.foldl (fun a c => 10 * a + (c.toNat - 48)) 0

/-- Parse a JSON integer: optional minus sign, digits, no leading zeros, and
no fraction or exponent part (a `.`, `e` or `E` after the digits makes the
value a float, outside the integer subset this development models). -/
def parseJInt (l : List Char) : Option (Int × List Char) :=
  let signed := l.head? == some '-'
  let l1 := if signed then l.drop 1 else l
  let ds := l1.takeWhile Char.isDigit
  match ds with
  | [] => none
  | '0' :: _ :: _ => none
  | _ =>
    let rest := l1.drop ds.length
    let floatish :=
      match rest.head? with
      | some c => c == '.' || c == 'e' || c == 'E'
      | none => false
    if floatish then none
    else
      let n : Int := Int.ofNat (digitsToNat ds)
      some ((if signed then -n else n), rest)

/-- Parse the members of a JSON object after the opening brace, collecting
string-keyed integer fields, and require the closing brace to end the
input (as `json.loads` rejects trailing data). -/
def parseMembers : Nat → List Char → List (String × Int) →
    Option (List (String × Int))
  | 0, _, _ => none
  | fuel + 1, l, acc =>
    match parseJString l with
    | none => none
    | some (k, l1) =>
      match skipWs l1 with
      | ':' :: l2 =>
        match parseJInt (skipWs l2) with
        | none => none
        | some (v, l3) =>
          match skipWs l3 with
          | ',' :: l4 => parseMembers fuel (skipWs l4) (acc ++ [(k, v)])
          | '\x7d' :: l5 => if (skipWs l5).isEmpty then some (acc ++ [(k, v)]) else none
          | _ => none
      | _ => none

/-- Parse a whole JSON object with integer fields, consuming the entire
input, mirroring `json.loads` on the flat integer-object subset used by the
scoring contract. -/
def parseJsonObj (l : List Char) : Option (List (String × Int)) :=
  match skipWs l with
  | '\x7b' :: rest =>
    match skipWs rest with
    | '\x7d' :: tail => if (skipWs tail).isEmpty then some [] else none
    | body => parseMembers (body.length + 1) body []
  | _ => none

/-- `parsed.get(k, default)` on the parsed JSON object; with duplicate keys
`json.loads` keeps the last occurrence, hence the reversed lookup. -/
def objGet (obj : List (String × Int)) (k : String) (default : Int) : Int :=
  match obj.reverse.find? (fun p => p.1 == k) with
  | some p => p.2
  | none => default

/-- The slice `response_text[start:end]` where `start = find("\x7b")` and
`end = rfind("\x7d") + 1`, returned only when `start >= 0 and end > start`
(score.py lines 126-129). -/
def braceSlice (cs : List Char) : Option (List Char) :=
  match cs.findIdx? (fun c => c == '\x7b'), cs.reverse.findIdx? (fun c => c == '\x7d') with
  | some start, some ri =>
    let stop := cs.length - ri
    if start < stop then some ((cs.drop start).take (stop - start)) else none
  | _, _ => none

/-- Python `str.strip()` restricted to ASCII whitespace (the upstream text
the claims exercise contains no exotic Unicode whitespace). -/
def pyStrip (cs : List Char) : List Char :=
  ((cs.dropWhile Char.isWhitespace).reverse.dropWhile Char.isWhitespace).reverse

/-- Python `int(s)` on an already-stripped string, restricted to an optional
sign followed by ASCII digits (no underscore separators). -/
def pyParseInt (cs : List Char) : Option Int :=
  let (neg, l1) :=
    match cs with
    | '-' :: t => (true, t)
    | '+' :: t => (false, t)
    | _ => (false, cs)
  if l1.isEmpty then none
  else if l1.all Char.isDigit then
    some (if neg then -(Int.ofNat (digitsToNat l1)) else Int.ofNat (digitsToNat l1))
  else none

/-- The fixed default response, Tier D (score.py lines 158-167). -/
def defaultResponse : ScoreResponse :=
  { score := 50,
    breakdown := { score := 50, motive_points := 15, method_points := 15, logic_points := 20 } }

/-- Tiers B-D of `score_reasoning` applied to the free-form completion text
(score.py lines 124-167): extract the brace-delimited substring and parse it
as JSON with per-key defaults; otherwise parse the stripped text as an
integer, clamp to [0,100] and split 30/30/40 by truncation (for scores in
[0,100] the source expression `int(score * 0.3)` equals `3 * score / 10`
exactly, checked over the whole clamped range); otherwise the default. -/
def scoreFromText (response_text : String) : ScoreResponse :=
  match (braceSlice response_text.data).bind parseJsonObj with
  | some parsed =>
    { score := objGet parsed "score" 50,
      breakdown :=
        { score := objGet parsed "score" 50,
          motive_points := objGet parsed "motive_points" 15,
          method_points := objGet parsed "method_points" 15,
          logic_points := objGet parsed "logic_points" 20 } }
  | none =>
    match pyParseInt (pyStrip response_text.data) with
    | some n =>
      let score : Int := max 0 (min 100 n)
      let sn : Nat := score.toNat
      { score := score,
        breakdown :=
          { score := score,
            motive_points := Int.ofNat ((3 * sn) / 10),
            method_points := Int.ofNat ((3 * sn) / 10),
            logic_points := Int.ofNat ((4 * sn) / 10) } }
    | none => defaultResponse

/-- Outcome of the upstream model interaction in `score_reasoning`, reached
only past the two short-circuits: either the schema-constrained call parses
into a `ReasoningScore` (Tier A), or it fails (any exception, including the
call itself raising) and the free-form fallback call returns a text, or the
fallback call itself raises with a message. -/
inductive ModelOutcome where
  | structured (r : ReasoningScore)
  | fallbackText (t : String)
  | fallbackError (msg : String)

/-- Which outbound model calls a run of the handler performs. -/
inductive CallKind where
  | structuredCall
  | fallbackCall
deriving DecidableEq

/-- The `score_reasoning` handler (score.py lines 31-170): the two terminal
short-circuits, then the upstream call whose outcome is `model`; an
exception escaping the tier chain is re-raised as HTTP 500 with the message
`"Error scoring reasoning: ..."` by the outer handler.  The second
component records the outbound calls made. -/
def score_reasoning (request : ScoreRequest) (model : ModelOutcome) :
    Except (Nat × String) ScoreResponse × List CallKind :=
  if request.is_correct = false then
    (Except.ok
      { score := 0,
        breakdown := { score := 0, motive_points := 0, method_points := 0, logic_points := 0 } },
     [])
  else if request.reasoning = "" ∨ request.reasoning.length < 20 then
    (Except.ok
      { score := 10,
        breakdown := { score := 10, motive_points := 3, method_points := 3, logic_points := 4 } },
     [])
  else
    match model with
    | ModelOutcome.structured r =>
      (Except.ok
        { score := r.score,
          breakdown :=
            { score := r.score, motive_points := r.motive_points,
              method_points := r.method_points, logic_points := r.logic_points } },
       [CallKind.structuredCall])
    | ModelOutcome.fallbackText t =>
      (Except.ok (scoreFromText t), [CallKind.structuredCall, CallKind.fallbackCall])
    | ModelOutcome.fallbackError msg =>
      (Except.error (500, "Error scoring reasoning: " ++ msg),
       [CallKind.structuredCall, CallKind.fallbackCall])

/-- Message roles accepted by `ChatMessage` (src/backend/models.py). -/
inductive Role where
  | user
  | assistant
  | system
deriving DecidableEq

/-- The literal role string sent upstream. -/
def Role.toString : Role → String
  | Role.user => "user"
  | Role.assistant => "assistant"
  | Role.system => "system"

/-- Pydantic model `ChatMessage`. -/
structure ChatMessage where
  role : Role
  content : String

/-- Pydantic model `ChatRequest`. -/
structure ChatRequest where
  story_id : String
  character_id : String
  messages : List ChatMessage
  system_prompt : String

/-- A role-tagged message in the OpenAI wire format. -/
structure ApiMessage where
  role : String
  content : String
deriving DecidableEq

/-- The message list sent upstream by `chat` (chat.py lines 36-42): the
request messages converted to wire format, then the system prompt inserted
at position 0. -/
def chatMessages (request : ChatRequest) : List ApiMessage :=
  let messages := request.messages.map (fun msg => ApiMessage.mk msg.role.toString msg.content)
  messages.insertIdx 0 (ApiMessage.mk "system" request.system_prompt)

/-- One chunk of the upstream completion stream; `delta_content` models
`chunk.choices[0].delta.content`, which may be absent (`None`). -/
structure Chunk where
  delta_content : Option String

/-- The `generate` generator in `chat` (chat.py lines 53-58): yield the
content of each chunk whose content is truthy (present and non-empty), in
stream order. -/
def generate : List Chunk → List String
  | [] => []
  | chunk :: rest =>
    match chunk.delta_content with
    | some s => if s = "" then generate rest else s :: generate rest
    | none => generate rest

/-- In every branch of the fallback chain the top-level score equals the
breakdown score. -/
theorem scoreFromText_score_eq (t : String) :
    (scoreFromText t).score = (scoreFromText t).breakdown.score := by
  unfold scoreFromText
  rcases (braceSlice t.data).bind parseJsonObj with _ | parsed
  · rcases pyParseInt (pyStrip t.data) with _ | n <;> rfl
  · rfl

/-- C1: with `is_correct = false` the endpoint returns the all-zero
response, for any reasoning, solution and upstream behaviour, and performs
no outbound model call. -/
theorem score_incorrect_zero (request : ScoreRequest) (model : ModelOutcome)
    (h : request.is_correct = false) :
    score_reasoning request model =
      (Except.ok
        { score := 0,
          breakdown := { score := 0, motive_points := 0, method_points := 0, logic_points := 0 } },
       []) := by
  simp [score_reasoning, h]

/-- Witness for C1 at a concrete incorrect request. -/
theorem score_incorrect_zero_witness :
    score_reasoning
      { reasoning := "a fully detailed chain of reasoning", solution := [("culprit", "X")],
        is_correct := false }
      (ModelOutcome.fallbackText "garbage") =
      (Except.ok
        { score := 0,
          breakdown := { score := 0, motive_points := 0, method_points := 0, logic_points := 0 } },
       []) :=
  score_incorrect_zero _ _ rfl

/-- C2: with `is_correct = true` and reasoning shorter than 20 characters
the endpoint returns the fixed score-10 response and performs no outbound
model call. -/
theorem score_short_reasoning_ten (request : ScoreRequest) (model : ModelOutcome)
    (h1 : request.is_correct = true) (h2 : request.reasoning.length < 20) :
    score_reasoning request model =
      (Except.ok
        { score := 10,
          breakdown := { score := 10, motive_points := 3, method_points := 3, logic_points := 4 } },
       []) := by
  simp [score_reasoning, h1, h2]

/-- Witness for C2 at a concrete short-reasoning request. -/
theorem score_short_reasoning_ten_witness :
    score_reasoning
      { reasoning := "too short", solution := [], is_correct := true }
      (ModelOutcome.fallbackText "garbage") =
      (Except.ok
        { score := 10,
          breakdown := { score := 10, motive_points := 3, method_points := 3, logic_points := 4 } },
       []) :=
  score_short_reasoning_ten _ _ rfl (by decide)

/-- C3: Tier B takes the substring from the first opening to the last
closing brace, parses it as JSON and reads the four fields with the
documented defaults; the two concrete example texts evaluate as the spec
requires. -/
theorem tierB_json_extraction :
    (∀ (t : String) (parsed : List (String × Int)),
        (braceSlice t.data).bind parseJsonObj = some parsed →
        scoreFromText t =
          { score := objGet parsed "score" 50,
            breakdown :=
              { score := objGet parsed "score" 50,
                motive_points := objGet parsed "motive_points" 15,
                method_points := objGet parsed "method_points" 15,
                logic_points := objGet parsed "logic_points" 20 } }) ∧
    scoreFromText "prefix \x7b\"score\": 77, \"motive_points\": 20, \"method_points\": 22, \"logic_points\": 35\x7d suffix" =
      { score := 77,
        breakdown := { score := 77, motive_points := 20, method_points := 22, logic_points := 35 } } ∧
    scoreFromText "\x7b\"score\": 60\x7d" =
      { score := 60,
        breakdown := { score := 60, motive_points := 15, method_points := 15, logic_points := 20 } } := by
  refine ⟨fun t parsed h => ?_, by decide, by decide⟩
  unfold scoreFromText
  rw [h]

/-- Witness for C3, applying the Tier B characterisation to the partial
object example. -/
theorem tierB_json_extraction_witness :
    scoreFromText "\x7b\"score\": 60\x7d" =
      { score := 60,
        breakdown := { score := 60, motive_points := 15, method_points := 15, logic_points := 20 } } :=
  tierB_json_extraction.1 "\x7b\"score\": 60\x7d" [("score", 60)] (by decide)

/-- C4: when Tier B fails and the stripped text parses as an integer, the
score is the integer clamped to [0,100] with sub-scores 30/30/40 percent of
it, truncated; the concrete text with value 88 evaluates as the spec
requires. -/
theorem tierC_bare_number :
    (∀ (t : String) (n : Int),
        (braceSlice t.data).bind parseJsonObj = none →
        pyParseInt (pyStrip t.data) = some n →
        scoreFromText t =
          { score := max 0 (min 100 n),
            breakdown :=
              { score := max 0 (min 100 n),
                motive_points := Int.ofNat ((3 * (max 0 (min 100 n)).toNat) / 10),
                method_points := Int.ofNat ((3 * (max 0 (min 100 n)).toNat) / 10),
                logic_points := Int.ofNat ((4 * (max 0 (min 100 n)).toNat) / 10) } }) ∧
    scoreFromText "  88  " =
      { score := 88,
        breakdown := { score := 88, motive_points := 26, method_points := 26, logic_points := 35 } } := by
  refine ⟨fun t n h1 h2 => ?_, by decide⟩
  unfold scoreFromText
  rw [h1, h2]

/-- Witness for C4 at the bare-number example text. -/
theorem tierC_bare_number_witness :
    scoreFromText "  88  " =
      { score := max 0 (min 100 (88 : Int)),
        breakdown :=
          { score := max 0 (min 100 (88 : Int)),
            motive_points := Int.ofNat ((3 * (max 0 (min 100 (88 : Int))).toNat) / 10),
            method_points := Int.ofNat ((3 * (max 0 (min 100 (88 : Int))).toNat) / 10),
            logic_points := Int.ofNat ((4 * (max 0 (min 100 (88 : Int))).toNat) / 10) } } :=
  tierC_bare_number.1 "  88  " 88 (by decide) (by decide)

/-- C5: past the short-circuits, when both the JSON extraction and the
integer parse fail on the fallback text, the endpoint returns the fixed
default response 50/15/15/20. -/
theorem tierD_default_response (request : ScoreRequest) (t : String)
    (h1 : request.is_correct = true)
    (h2 : ¬(request.reasoning = "" ∨ request.reasoning.length < 20))
    (h3 : (braceSlice t.data).bind parseJsonObj = none)
    (h4 : pyParseInt (pyStrip t.data) = none) :
    score_reasoning request (ModelOutcome.fallbackText t) =
      (Except.ok
        { score := 50,
          breakdown := { score := 50, motive_points := 15, method_points := 15, logic_points := 20 } },
       [CallKind.structuredCall, CallKind.fallbackCall]) := by
  simp only [score_reasoning, h1, if_neg h2]
  · unfold scoreFromText
    rw [h3, h4]
    rfl

/-- Witness for C5 at the unparseable example text. -/
theorem tierD_default_response_witness :
    score_reasoning
      { reasoning := "the butler did it with the candlestick in the library",
        solution := [], is_correct := true }
      (ModelOutcome.fallbackText "I cannot compute a score") =
      (Except.ok
        { score := 50,
          breakdown := { score := 50, motive_points := 15, method_points := 15, logic_points := 20 } },
       [CallKind.structuredCall, CallKind.fallbackCall]) :=
  tierD_default_response _ _ rfl (by decide) (by decide) (by decide)

/-- C6: the chat generator emits an order-preserving selection of the
upstream contents (never inventing or reordering fragments), emits every
stream of non-empty fragments verbatim, and on the concrete example stream
emits exactly the three fragments in order. -/
theorem chat_stream_order :
    (∀ chunks : List Chunk,
        List.Sublist (generate chunks) (chunks.filterMap Chunk.delta_content)) ∧
    (∀ fragments : List String, (∀ s ∈ fragments, s ≠ "") →
        generate (fragments.map (fun s => Chunk.mk (some s))) = fragments) ∧
    generate [Chunk.mk (some "Hello"), Chunk.mk (some ", "), Chunk.mk (some "world")] =
      ["Hello", ", ", "world"] := by
  refine ⟨?_, ?_, rfl⟩
  · intro chunks
    induction chunks with
    | nil => simp [generate]
    | cons c rest ih =>
      cases hc : c.delta_content with
      | none =>
        have hrhs : List.filterMap Chunk.delta_content (c :: rest) =
            List.filterMap Chunk.delta_content rest := by
          simp [List.filterMap_cons, hc]
        have hgen : generate (c :: rest) = generate rest := by
          simp [generate, hc]
        rw [hrhs, hgen]
        exact ih
      | some s =>
        have hrhs : List.filterMap Chunk.delta_content (c :: rest) =
            s :: List.filterMap Chunk.delta_content rest := by
          simp [List.filterMap_cons, hc]
        rw [hrhs]
        by_cases hs : s = ""
        · have hgen : generate (c :: rest) = generate rest := by
            simp [generate, hc, hs]
          rw [hgen]
          exact ih.cons s
        · have hgen : generate (c :: rest) = s :: generate rest := by
            simp [generate, hc, hs]
          rw [hgen]
          exact ih.cons₂ s
  · intro fragments h
    induction fragments with
    | nil => rfl
    | cons s rest ih =>
      have hs : s ≠ "" := h s (List.mem_cons_self s rest)
      have hrest := ih fun x hx => h x (List.mem_cons_of_mem s hx)
      simp only [List.map_cons, generate, if_neg hs]
      rw [hrest]

/-- Witness for C6, applying the verbatim-forwarding part to the example
stream. -/
theorem chat_stream_order_witness :
    generate (["Hello", ", ", "world"].map (fun s => Chunk.mk (some s))) =
      ["Hello", ", ", "world"] :=
  chat_stream_order.2.1 ["Hello", ", ", "world"] (by decide)

/-- C7: the tier chain never turns a parsing failure into an error (every
fallback text and every structured result yield an `ok` response), while an
exception escaping the chain (the fallback call raising) surfaces as HTTP
500 with the exception message. -/
theorem score_error_handling :
    (∀ (request : ScoreRequest) (t : String),
        ∃ resp : ScoreResponse,
          (score_reasoning request (ModelOutcome.fallbackText t)).1 = Except.ok resp) ∧
    (∀ (request : ScoreRequest) (r : ReasoningScore),
        ∃ resp : ScoreResponse,
          (score_reasoning request (ModelOutcome.structured r)).1 = Except.ok resp) ∧
    (∀ (request : ScoreRequest) (msg : String),
        request.is_correct = true →
        ¬(request.reasoning = "" ∨ request.reasoning.length < 20) →
        (score_reasoning request (ModelOutcome.fallbackError msg)).1 =
          Except.error (500, "Error scoring reasoning: " ++ msg)) := by
  refine ⟨fun request t => ?_, fun request r => ?_, fun request msg h1 h2 => ?_⟩
  · by_cases h : request.is_correct = false
    · exact ⟨{ score := 0,
               breakdown := { score := 0, motive_points := 0, method_points := 0, logic_points := 0 } },
             by simp [score_reasoning, h]⟩
    · by_cases h2 : request.reasoning = "" ∨ request.reasoning.length < 20
      · exact ⟨{ score := 10,
                 breakdown := { score := 10, motive_points := 3, method_points := 3, logic_points := 4 } },
               by simp only [score_reasoning, if_neg h, if_pos h2]⟩
      · exact ⟨scoreFromText t, by simp only [score_reasoning, if_neg h, if_neg h2]⟩
  · by_cases h : request.is_correct = false
    · exact ⟨{ score := 0,
               breakdown := { score := 0, motive_points := 0, method_points := 0, logic_points := 0 } },
             by simp [score_reasoning, h]⟩
    · by_cases h2 : request.reasoning = "" ∨ request.reasoning.length < 20
      · exact ⟨{ score := 10,
                 breakdown := { score := 10, motive_points := 3, method_points := 3, logic_points := 4 } },
               by simp only [score_reasoning, if_neg h, if_pos h2]⟩
      · exact ⟨{ score := r.score,
                 breakdown :=
                   { score := r.score, motive_points := r.motive_points,
                     method_points := r.method_points, logic_points := r.logic_points } },
               by simp only [score_reasoning, if_neg h, if_neg h2]⟩
  · simp [score_reasoning, h1, if_neg h2]

/-- Witness for C7, applying the 500 branch at a concrete request and
message. -/
theorem score_error_handling_witness :
    (score_reasoning
      { reasoning := "the butler did it with the candlestick in the library",
        solution := [], is_correct := true }
      (ModelOutcome.fallbackError "boom")).1 =
      Except.error (500, "Error scoring reasoning: " ++ "boom") :=
  score_error_handling.2.2 _ "boom" rfl (by decide)

/-- C8: prompt construction is total, and every solution key absent from
the mapping renders as the string Unknown; with all three keys absent the
whole prompt is the fixed text around the reasoning. -/
theorem prompt_missing_keys (request : ScoreRequest) :
    (request.solution.find? (fun p => p.1 == "culprit") = none →
      dictGet request.solution "culprit" "Unknown" = "Unknown") ∧
    (request.solution.find? (fun p => p.1 == "method") = none →
      dictGet request.solution "method" "Unknown" = "Unknown") ∧
    (request.solution.find? (fun p => p.1 == "motive") = none →
      dictGet request.solution "motive" "Unknown" = "Unknown") ∧
    (request.solution.find? (fun p => p.1 == "culprit") = none →
     request.solution.find? (fun p => p.1 == "method") = none →
     request.solution.find? (fun p => p.1 == "motive") = none →
      buildPrompt request =
        "THE CORRECT SOLUTION:\n- Culprit: Unknown\n- Method: Unknown\n- Motive: Unknown\n\nTHE DETECTIVE\x27S REASONING:\n\"" ++
          request.reasoning ++
          "\"\n\nEvaluate the reasoning and provide a structured score.") := by
  refine ⟨fun h1 => ?_, fun h2 => ?_, fun h3 => ?_, fun h1 h2 h3 => ?_⟩
  · unfold dictGet
    rw [h1]
  · unfold dictGet
    rw [h2]
  · unfold dictGet
    rw [h3]
  · unfold buildPrompt dictGet
    rw [h1, h2, h3]
    rfl

/-- Witness for C8 at a solution mapping missing all three keys. -/
theorem prompt_missing_keys_witness :
    buildPrompt { reasoning := "guesswork", solution := [("weapon", "rope")], is_correct := true } =
      "THE CORRECT SOLUTION:\n- Culprit: Unknown\n- Method: Unknown\n- Motive: Unknown\n\nTHE DETECTIVE\x27S REASONING:\n\"" ++
        "guesswork" ++
        "\"\n\nEvaluate the reasoning and provide a structured score." :=
  (prompt_missing_keys _).2.2.2 (by decide) (by decide) (by decide)

/-- C9: the upstream message list is the system prompt at position 0
followed by the request messages in order with roles and contents
preserved, and an empty message list yields exactly the single system
message. -/
theorem chat_system_message_first (request : ChatRequest) :
    chatMessages request =
      ApiMessage.mk "system" request.system_prompt ::
        request.messages.map (fun msg => ApiMessage.mk msg.role.toString msg.content) ∧
    (request.messages = [] →
      chatMessages request = [ApiMessage.mk "system" request.system_prompt]) := by
  constructor
  · unfold chatMessages
    exact List.insertIdx_zero _ _
  · intro h
    unfold chatMessages
    rw [h]
    rfl

/-- Witness for C9 at a concrete empty-history request. -/
theorem chat_system_message_first_witness :
    chatMessages
      { story_id := "s1", character_id := "c1", messages := [], system_prompt := "be the butler" } =
      [ApiMessage.mk "system" "be the butler"] :=
  (chat_system_message_first _).2 rfl

/-- C10: every `ok` response the endpoint can produce has its top-level
score equal to the breakdown score. -/
theorem response_breakdown_consistent (request : ScoreRequest) (model : ModelOutcome)
    (resp : ScoreResponse) (calls : List CallKind)
    (h : score_reasoning request model = (Except.ok resp, calls)) :
    resp.score = resp.breakdown.score := by
  unfold score_reasoning at h
  split at h
  · injection h with h1 h2
    injection h1 with h1
    subst h1
    rfl
  · split at h
    · injection h with h1 h2
      injection h1 with h1
      subst h1
      rfl
    · split at h
      · injection h with h1 h2
        injection h1 with h1
        subst h1
        rfl
      · injection h with h1 h2
        injection h1 with h1
        subst h1
        exact scoreFromText_score_eq _
      · injection h with h1 h2
        exact Except.noConfusion h1

/-- Witness for C10 at a concrete run of the endpoint. -/
theorem response_breakdown_consistent_witness :
    ({ score := 0,
       breakdown := { score := 0, motive_points := 0, method_points := 0, logic_points := 0 } } :
      ScoreResponse).score =
    ({ score := 0,
       breakdown := { score := 0, motive_points := 0, method_points := 0, logic_points := 0 } } :
      ScoreResponse).breakdown.score :=
  response_breakdown_consistent
    { reasoning := "", solution := [], is_correct := false }
    (ModelOutcome.fallbackText "x") _ _ rfl

end Jasoos
